import Mathlib

/-!
# Verification of `device_manager`

A shallow embedding of `src/device_manager/device_manager.py` (FAU-iPAT
`device_manager`): a singleton class that selects CPU/GPU devices for a
tensorflow-like framework and lazily builds a distribution strategy.

The framework (tensorflow) is external; it is modelled by an `Env` record
holding the physical device lists it would report, a fault model for
`set_memory_growth` (which gpu index, if any, makes the call raise
`RuntimeError`), and the value the framework scope's `__exit__` returns.
Class-level mutable state of `DeviceManager` becomes the record `DMState`,
passed and returned explicitly.  Python exceptions become `Except String`
results; partial mutation before a raise is modelled by returning the
mutated state together with the error.
-/

set_option autoImplicit false

deriving instance DecidableEq for Except

namespace DeviceManagerSpec

/-- `collections.namedtuple("PhysicalDevice", ["name", "device_type"])`:
a device as reported by the framework. -/
structure PhysicalDevice where
  name : String
  device_type : String
deriving DecidableEq, Repr

abbrev DeviceList := List PhysicalDevice

/-- Default device value used only to totalize list indexing after a
bounds check has already been performed. -/
def defaultDevice : PhysicalDevice := ⟨"", ""⟩

/-- A single device identifier as accepted by `cpu`/`gpu`: a Python `int`
or a Python `str`. -/
inductive DeviceIdentifier where
  | int : Int → DeviceIdentifier
  | str : String → DeviceIdentifier
deriving DecidableEq, Repr

/-- The `_DeviceString` argument type: either a single identifier or a
list of identifiers. -/
inductive DeviceString where
  | one : DeviceIdentifier → DeviceString
  | list : List DeviceIdentifier → DeviceString
deriving DecidableEq, Repr

/-- A `tf.distribute.Strategy` as far as this code observes it: which
constructor was called and with which argument. -/
inductive Strategy where
  | MirroredStrategy (devices : List String)
  | OneDeviceStrategy (device : String)
deriving DecidableEq, Repr

/-- `num_replicas_in_sync` of the framework strategy object: the number of
mirrored devices, or 1 for a one-device strategy. -/
def Strategy.num_replicas_in_sync : Strategy → Nat
  | .MirroredStrategy ds => ds.length
  | .OneDeviceStrategy _ => 1

/-- The framework scope object returned by `strategy.scope()`; opaque to
this code, identified by the strategy it came from. -/
structure StrategyScope where
  strat : Strategy
deriving DecidableEq, Repr

/-- `strategy.scope()`. -/
def Strategy.scope (s : Strategy) : StrategyScope := ⟨s⟩

/-- The external framework: the physical devices `tf.config.list_physical_devices`
reports for each type, whether/where `set_memory_growth` raises
`RuntimeError`, and what the framework scope's `__exit__` returns. -/
structure Env where
  cpus : DeviceList
  gpus : DeviceList
  growthFailAt : Option Nat
  scopeExitResult : Option Bool
deriving DecidableEq, Repr

/-- The class-level mutable state of `DeviceManager`
(`_device`, `_device_list`, `_strategy`, `_scope`, `_growth`). -/
structure DMState where
  device : Option String
  device_list : DeviceList
  strategy : Option Strategy
  scope : Option StrategyScope
  growth : Bool
deriving DecidableEq, Repr

/-- The initial class state: no device type, empty selection, no cached
strategy or scope, growth off. -/
def initState : DMState := ⟨none, [], none, none, false⟩

/-- Python `str.upper()` (ASCII case mapping, which covers every string
this code upper-cases). -/
def upperPy (s : String) : String := ⟨s.data.map Char.toUpper⟩

/-- Python `str.lower()` (ASCII case mapping, which covers every string
this code lower-cases). -/
def lowerPy (s : String) : String := ⟨s.data.map Char.toLower⟩

/-- Python `str.split(':')` on the character list: split at every `':'`,
keeping empty segments; the result is never empty. -/
def splitColonAux : List Char → List String
  | [] => [""]
  | c :: rest =>
    match splitColonAux rest with
    | [] => []
    | seg :: segs =>
      if c = ':' then "" :: seg :: segs
      else ⟨c :: seg.data⟩ :: segs

/-- Python `name.split(':')`. -/
def splitColon (s : String) : List String := splitColonAux s.data

/-- `DeviceManager._short_names`: map each device name to
`'/{parts[-2].lower()}:{parts[-1]}'` where `parts = name.split(':')`. -/
def short_names (devices : DeviceList) : List String :=
  devices.map fun d =>
    let parts := splitColon d.name
    "/" ++ lowerPy (parts.getD (parts.length - 2) "") ++ ":"
        ++ (parts.getD (parts.length - 1) "")

/-- `DeviceManager._to_index`: an `int` is returned unchanged; a `str` is
looked up, upper-cased, in `{FIRST:0, SECOND:1, THIRD:2, FOURTH:3}` with
default `-1`. -/
def to_index : DeviceIdentifier → Int
  | .int i => i
  | .str s =>
    match upperPy s with
    | "FIRST" => 0
    | "SECOND" => 1
    | "THIRD" => 2
    | "FOURTH" => 3
    | _ => -1

/-- The loop body of `DeviceManager._select_from_available`, carrying the
`result` accumulator; raising `IndexError` becomes `.error`. -/
def selectLoop (available : DeviceList) :
    List DeviceIdentifier → DeviceList → Except String DeviceList
  | [], result => .ok result
  | d :: rest, result =>
    if d = .str "all" then
      selectLoop available rest (result ++ available)
    else
      let idx := to_index d
      if idx < 0 ∨ (available.length : Int) ≤ idx then
        .error ("Device \x7b\x7d not available!")
      else
        selectLoop available rest (result ++ [available.getD idx.toNat defaultDevice])

/-- `DeviceManager._select_from_available`: normalize the argument to a
list, then run the selection loop with an empty accumulator. -/
def select_from_available (devices : DeviceString) (available : DeviceList) :
    Except String DeviceList :=
  let device_list :=
    match devices with
    | .list ds => ds
    | .one d => [d]
  selectLoop available device_list []

/-- `DeviceManager.cpu`: sets `_device := 'cpu'`, queries the CPU list,
then selects.  If selection raises, the state keeps the already-performed
`_device` assignment but `_device_list` and `_strategy` are untouched; on
success the selection is installed and `_strategy` is reset to `None`. -/
def cpu (env : Env) (s : DMState) (devices : DeviceString) : DMState × Option String :=
  let s1 := { s with device := some "cpu" }
  match select_from_available devices env.cpus with
  | .error e => (s1, some e)
  | .ok sel => ({ s1 with device_list := sel, strategy := none }, none)

/-- `DeviceManager.gpu`: same as `cpu` but for the GPU device list. -/
def gpu (env : Env) (s : DMState) (devices : DeviceString) : DMState × Option String :=
  let s1 := { s with device := some "gpu" }
  match select_from_available devices env.gpus with
  | .error e => (s1, some e)
  | .ok sel => ({ s1 with device_list := sel, strategy := none }, none)

/-- The `set_memory_growth` calls that complete successfully during
`_build_strategy`'s growth loop: all gpus get the flag, unless the
framework raises at index `k`, in which case only the first `k` do
(the `try` wraps the whole loop, so the first raise aborts it). -/
def growthCalls (env : Env) (growth : Bool) : List (PhysicalDevice × Bool) :=
  match env.growthFailAt with
  | none => env.gpus.map fun g => (g, growth)
  | some k => (env.gpus.take k).map fun g => (g, growth)

/-- The strategy `_build_strategy` constructs from a selection:
mirrored over the short names for 2+, one-device for exactly 1, and the
default `'/cpu:0'` one-device strategy for 0. -/
def stratOf (device_list : DeviceList) : Strategy :=
  let devices := short_names device_list
  if 2 ≤ devices.length then
    .MirroredStrategy devices
  else if devices.length = 1 then
    .OneDeviceStrategy (devices.getD 0 "")
  else
    .OneDeviceStrategy "/cpu:0"

/-- `DeviceManager._build_strategy`: if a strategy is cached, do nothing
(and make no framework calls).  Otherwise: when `_device == 'gpu'`,
attempt `set_memory_growth` on every reported gpu, swallowing a
`RuntimeError`; then cache the strategy shaped by the selection count.
Returns the new state together with the list of completed
`set_memory_growth` calls. -/
def build_strategy (env : Env) (s : DMState) : DMState × List (PhysicalDevice × Bool) :=
  match s.strategy with
  | some _ => (s, [])
  | none =>
    let calls := if s.device = some "gpu" then growthCalls env s.growth else []
    ({ s with strategy := some (stratOf s.device_list) }, calls)

/-- The `strategy` property: build if needed, return the cached strategy. -/
def strategyProp (env : Env) (s : DMState) : DMState × Option Strategy :=
  let s1 := (build_strategy env s).1
  (s1, s1.strategy)

/-- `DeviceManager.scope`: build if needed, return `_strategy.scope()`. -/
def scopeMethod (env : Env) (s : DMState) : DMState × Option StrategyScope :=
  let s1 := (build_strategy env s).1
  (s1, s1.strategy.map Strategy.scope)

/-- The `replica` property: `strategy.num_replicas_in_sync`. -/
def replica (env : Env) (s : DMState) : DMState × Option Nat :=
  let (s1, st) := strategyProp env s
  (s1, st.map Strategy.num_replicas_in_sync)

/-- `DeviceManager.__enter__`: build the strategy, store
`_scope := _strategy.scope()`, and enter the stored scope (the framework
scope's `__enter__` yields the scope context itself in this model). -/
def dmEnter (env : Env) (s : DMState) : DMState × Option StrategyScope :=
  let s1 := (build_strategy env s).1
  match s1.strategy with
  | some st => ({ s1 with scope := some st.scope }, some st.scope)
  | none => ({ s1 with scope := none }, none)

/-- A record of one `__exit__` invocation on a framework scope: which
scope object was exited and which exception information was passed. -/
structure ExitCall where
  scope : StrategyScope
  exc : Option String
deriving DecidableEq, Repr

/-- `DeviceManager.__exit__`: forward the exception information to the
stored `_scope.__exit__` and return its result (the framework decides the
return value); if no scope was ever stored, Python would raise
`AttributeError` on `None.__exit__`. -/
def dmExit (env : Env) (s : DMState) (exc : Option String) :
    Except String (Option Bool × ExitCall) :=
  match s.scope with
  | some sc => .ok (env.scopeExitResult, ⟨sc, exc⟩)
  | none => .error "AttributeError"

/-- Python `with manager:` semantics around a body that either returns a
value or raises: `__enter__` runs first; whatever the body does,
`__exit__` is invoked with the body's exception information; a truthy
`__exit__` result suppresses the exception.  Returns the final state, the
overall outcome, and the list of `__exit__` invocations that reached the
framework scope. -/
def withDM (α : Type) (env : Env) (s : DMState) (body : Except String α) :
    DMState × Except String (Option α) × List ExitCall :=
  let s1 := (dmEnter env s).1
  let exc : Option String :=
    match body with
    | .ok _ => none
    | .error e => some e
  match dmExit env s1 exc with
  | .error e2 => (s1, .error e2, [])
  | .ok (r, call) =>
    let outcome : Except String (Option α) :=
      match body with
      | .ok a => .ok (some a)
      | .error e => if r = some true then .ok none else .error e
    (s1, outcome, [call])

/-! ## Auxiliary characterizations of the selection loop -/

/-- What one identifier contributes to the selection: each `'all'`
occurrence contributes the whole available list at its position; any
other identifier contributes the single device at its resolved index. -/
def expandOne (available : DeviceList) (d : DeviceIdentifier) : DeviceList :=
  if d = .str "all" then available
  else [available.getD (to_index d).toNat defaultDevice]

/-- An identifier the selection loop accepts against `available`: the
literal `'all'`, or an identifier whose resolved index is in range. -/
def validId (available : DeviceList) (d : DeviceIdentifier) : Prop :=
  d = DeviceIdentifier.str "all" ∨
    (0 ≤ to_index d ∧ to_index d < (available.length : Int))

instance validId.dec (available : DeviceList) (d : DeviceIdentifier) :
    Decidable (validId available d) := by
  unfold validId; exact inferInstance

theorem selectLoop_ok (available : DeviceList) :
    ∀ (ids : List DeviceIdentifier) (acc : DeviceList),
      (∀ d ∈ ids, validId available d) →
      selectLoop available ids acc
        = .ok (acc ++ (ids.map (expandOne available)).flatten) := by
  intro ids
  induction ids with
  | nil => intro acc _; simp [selectLoop]
  | cons d rest ih =>
    intro acc h
    have hd : validId available d := h d (by simp)
    have hrest : ∀ x ∈ rest, validId available x := fun x hx => h x (by simp [hx])
    by_cases hall : d = DeviceIdentifier.str "all"
    · simp only [selectLoop, if_pos hall]
      rw [ih _ hrest]
      simp [expandOne, hall, List.append_assoc]
    · rcases hd with h1 | ⟨h2, h3⟩
      · exact absurd h1 hall
      · have hno : ¬ (to_index d < 0 ∨ (available.length : Int) ≤ to_index d) := by omega
        simp only [selectLoop, if_neg hall, if_neg hno]
        rw [ih _ hrest]
        simp [expandOne, hall, List.append_assoc]

theorem selectLoop_error (available : DeviceList) :
    ∀ (ids : List DeviceIdentifier) (acc : DeviceList),
      (∃ d ∈ ids, ¬ validId available d) →
      ∃ e, selectLoop available ids acc = .error e := by
  intro ids
  induction ids with
  | nil => intro acc h; simp at h
  | cons d rest ih =>
    intro acc h
    by_cases hall : d = DeviceIdentifier.str "all"
    · have hrest : ∃ x ∈ rest, ¬ validId available x := by
        rcases h with ⟨x, hx, hbad⟩
        rcases List.mem_cons.mp hx with rfl | hx'
        · exact absurd (Or.inl hall) hbad
        · exact ⟨x, hx', hbad⟩
      simp only [selectLoop, if_pos hall]
      exact ih _ hrest
    · by_cases hidx : to_index d < 0 ∨ (available.length : Int) ≤ to_index d
      · exact ⟨"Device \x7b\x7d not available!", by simp only [selectLoop, if_neg hall, if_pos hidx]⟩
      · have hv : validId available d := Or.inr (by omega)
        have hrest : ∃ x ∈ rest, ¬ validId available x := by
          rcases h with ⟨x, hx, hbad⟩
          rcases List.mem_cons.mp hx with rfl | hx'
          · exact absurd hv hbad
          · exact ⟨x, hx', hbad⟩
        simp only [selectLoop, if_neg hall, if_neg hidx]
        exact ih _ hrest

theorem flatten_map_singleton {α β : Type} (f : α → List β) (g : α → β) :
    ∀ l : List α, (∀ x ∈ l, f x = [g x]) → (l.map f).flatten = l.map g := by
  intro l
  induction l with
  | nil => intro _; simp
  | cons a t ih =>
    intro h
    have ha : f a = [g a] := h a (by simp)
    have ht := ih fun x hx => h x (by simp [hx])
    simp [ha, ht]

theorem build_strategy_of_none (env : Env) (s : DMState) (h : s.strategy = none) :
    (build_strategy env s).1 = { s with strategy := some (stratOf s.device_list) } := by
  simp [build_strategy, h]

theorem build_strategy_of_some (env : Env) (s : DMState) (st : Strategy)
    (h : s.strategy = some st) : (build_strategy env s).1 = s := by
  simp [build_strategy, h]

theorem build_strategy_isSome (env : Env) (s : DMState) :
    ((build_strategy env s).1.strategy).isSome := by
  cases h : s.strategy with
  | none => rw [build_strategy_of_none env s h]; rfl
  | some st => rw [build_strategy_of_some env s st h, h]; rfl

/-! ## Sample devices for concrete instantiations -/

/-- A CPU device as tensorflow names it. -/
def cpuDev : PhysicalDevice := ⟨"/physical_device:CPU:0", "CPU"⟩

/-- A first GPU device as tensorflow names it. -/
def gpuDev0 : PhysicalDevice := ⟨"/physical_device:GPU:0", "GPU"⟩

/-- A second GPU device as tensorflow names it. -/
def gpuDev1 : PhysicalDevice := ⟨"/physical_device:GPU:1", "GPU"⟩

/-! ## Claims -/

/-- **C1.** For every build of the Strategy (via `getStrategy`/`scope`/
`strategy`/`replica`), the strategy shape is chosen solely by the number
of currently selected devices: 0 selected yields a single-device strategy
pinned to the default device `'/cpu:0'`; exactly 1 selected yields a
single-device strategy pinned to that device's formatted short name; 2 or
more selected yields a mirrored strategy over all selected devices'
formatted short names, in selection order. -/
theorem strategy_shape_by_count (env : Env) (s : DMState) (h : s.strategy = none) :
    (s.device_list = [] →
      (strategyProp env s).2 = some (Strategy.OneDeviceStrategy "/cpu:0")) ∧
    (∀ d, s.device_list = [d] →
      (strategyProp env s).2
        = some (Strategy.OneDeviceStrategy ((short_names [d]).getD 0 ""))) ∧
    (2 ≤ s.device_list.length →
      (strategyProp env s).2
        = some (Strategy.MirroredStrategy (short_names s.device_list))) ∧
    (scopeMethod env s).2 = ((strategyProp env s).2).map Strategy.scope ∧
    (replica env s).2
      = ((strategyProp env s).2).map Strategy.num_replicas_in_sync := by
  have hmain : (strategyProp env s).2 = some (stratOf s.device_list) := by
    simp [strategyProp, build_strategy_of_none env s h]
  refine ⟨?_, ?_, ?_, rfl, rfl⟩
  · intro h0
    rw [hmain, h0]
    simp [stratOf, short_names]
  · intro d h1
    rw [hmain, h1]
    simp [stratOf, short_names]
  · intro h2
    rw [hmain]
    have hlen : (short_names s.device_list).length = s.device_list.length := by
      simp [short_names]
    simp only [stratOf]
    rw [if_pos (by omega)]

/-- Witness for C1 at a concrete two-GPU selection. -/
theorem strategy_shape_by_count_witness :
    (strategyProp ⟨[cpuDev], [gpuDev0, gpuDev1], none, none⟩
        ⟨some "gpu", [gpuDev0, gpuDev1], none, none, false⟩).2
      = some (Strategy.MirroredStrategy
          (short_names (⟨some "gpu", [gpuDev0, gpuDev1], none, none, false⟩ :
            DMState).device_list)) :=
  (strategy_shape_by_count ⟨[cpuDev], [gpuDev0, gpuDev1], none, none⟩
    ⟨some "gpu", [gpuDev0, gpuDev1], none, none, false⟩ rfl).2.2.1 (by decide)

/-- **C5.** For every list of valid identifiers not containing the literal
`'all'`, a successful select of N identifiers yields a Device Selection of
length N whose devices appear in the same order as the input identifiers:
the selection is exactly the identifier list mapped, position by position,
to the device at the identifier's resolved index. -/
theorem select_preserves_length_and_order (available : DeviceList)
    (ids : List DeviceIdentifier)
    (h : ∀ d ∈ ids, d ≠ DeviceIdentifier.str "all" ∧
      0 ≤ to_index d ∧ to_index d < (available.length : Int)) :
    select_from_available (.list ids) available
      = .ok (ids.map fun d => available.getD (to_index d).toNat defaultDevice) ∧
    (ids.map fun d => available.getD (to_index d).toNat defaultDevice).length
      = ids.length := by
  have hv : ∀ d ∈ ids, validId available d := fun d hd => Or.inr (h d hd).2
  constructor
  · have hsel := selectLoop_ok available ids [] hv
    have hflat : (ids.map (expandOne available)).flatten
        = ids.map fun d => available.getD (to_index d).toNat defaultDevice := by
      refine flatten_map_singleton _ _ ids fun x hx => ?_
      simp [expandOne, (h x hx).1]
    simp only [select_from_available]
    rw [hsel, hflat]
    simp
  · simp

/-- Witness for C5: selecting `[1, 'first']` from two CPUs gives the two
devices in that order. -/
theorem select_preserves_length_and_order_witness :
    select_from_available (.list [.int 1, .str "first"]) [cpuDev, gpuDev0]
      = .ok [gpuDev0, cpuDev] ∧
    ([DeviceIdentifier.int 1, DeviceIdentifier.str "first"].map
      fun d => [cpuDev, gpuDev0].getD (to_index d).toNat defaultDevice).length
      = [DeviceIdentifier.int 1, DeviceIdentifier.str "first"].length := by
  have h := select_preserves_length_and_order [cpuDev, gpuDev0]
    [.int 1, .str "first"] (by decide)
  exact ⟨by rw [h.1]; decide, h.2⟩

/-- **C6.** Selecting with the identifier `'all'` yields a Device
Selection equal to the full queried device list for the chosen device
type, in query order. -/
theorem select_all_yields_full_list (env : Env) (s : DMState)
    (available : DeviceList) :
    select_from_available (.one (.str "all")) available = .ok available ∧
    select_from_available (.list [.str "all"]) available = .ok available ∧
    (cpu env s (.one (.str "all"))).1.device_list = env.cpus ∧
    (cpu env s (.one (.str "all"))).2 = none ∧
    (gpu env s (.one (.str "all"))).1.device_list = env.gpus ∧
    (gpu env s (.one (.str "all"))).2 = none := by
  refine ⟨?_, ?_, ?_, ?_, ?_, ?_⟩ <;>
    simp [select_from_available, selectLoop, cpu, gpu]

/-- **C7.** For every device, the formatted short name used for strategy
construction is obtained by splitting the device's fully qualified name on
`':'` and rebuilding it as `'/{second-to-last segment, lowercased}:{last
segment}'`; in particular a device named `.../device:GPU:2` formats to
`'/gpu:2'`. -/
theorem short_name_format (d : PhysicalDevice) (parts : List String)
    (hp : splitColon d.name = parts) (h2 : 2 ≤ parts.length) :
    short_names [d]
      = ["/" ++ lowerPy (parts.getD (parts.length - 2) "") ++ ":"
          ++ (parts.getD (parts.length - 1) "")] ∧
    short_names [⟨"/physical_device:GPU:2", "GPU"⟩] = ["/gpu:2"] := by
  constructor
  · simp [short_names, hp]
  · decide

/-- Witness for C7 at the `.../device:GPU:2` device. -/
theorem short_name_format_witness :
    short_names [(⟨"/physical_device:GPU:2", "GPU"⟩ : PhysicalDevice)]
      = ["/" ++ lowerPy (["/physical_device", "GPU", "2"].getD 1 "") ++ ":"
          ++ (["/physical_device", "GPU", "2"].getD 2 "")] :=
  (short_name_format ⟨"/physical_device:GPU:2", "GPU"⟩
    ["/physical_device", "GPU", "2"] (by decide) (by decide)).1

/-- **C10.** The literal `'all'` is expanded per occurrence within an
identifier list: each occurrence of `'all'` appends the entire queried
device list at that position, so mixed or repeated inputs (e.g.
`['all','all']` or `[0,'all']`) produce selections containing duplicate
devices, with no deduplication and no error. -/
theorem all_expanded_per_occurrence (available : DeviceList)
    (ids : List DeviceIdentifier)
    (h : ∀ d ∈ ids, validId available d) :
    select_from_available (.list ids) available
      = .ok ((ids.map (expandOne available)).flatten) ∧
    select_from_available (.list [.str "all", .str "all"]) available
      = .ok (available ++ available) ∧
    (0 < available.length →
      select_from_available (.list [.int 0, .str "all"]) available
        = .ok (available.getD 0 defaultDevice :: available)) := by
  refine ⟨?_, ?_, ?_⟩
  · have hsel := selectLoop_ok available ids [] h
    simp only [select_from_available]
    rw [hsel]
    simp
  · simp [select_from_available, selectLoop]
  · intro hpos
    have hno : ¬ (to_index (DeviceIdentifier.int 0) < 0
        ∨ (available.length : Int) ≤ to_index (DeviceIdentifier.int 0)) := by
      simp only [to_index]
      omega
    simp [select_from_available, selectLoop, hno]
    simp [to_index]

/-- Witness for C10: `['all', 0]` against two devices duplicates the first
device. -/
theorem all_expanded_per_occurrence_witness :
    select_from_available (.list [.str "all", .int 0]) [cpuDev, gpuDev0]
      = .ok (([DeviceIdentifier.str "all", DeviceIdentifier.int 0].map
          (expandOne [cpuDev, gpuDev0])).flatten) ∧
    select_from_available (.list [.str "all", .str "all"]) [cpuDev, gpuDev0]
      = .ok ([cpuDev, gpuDev0] ++ [cpuDev, gpuDev0]) :=
  ⟨(all_expanded_per_occurrence [cpuDev, gpuDev0] [.str "all", .int 0]
      (by decide)).1,
   (all_expanded_per_occurrence [cpuDev, gpuDev0] [.str "all", .int 0]
      (by decide)).2.1⟩

/-- **C2.** For every select call (`cpu()`/`gpu()`) and every identifier
argument: an integer identifier is used directly as an index into the
queried device list; a string identifier is mapped case-insensitively
through the fixed table FIRST→0, SECOND→1, THIRD→2, FOURTH→3, and any
other string resolves to an invalid index; if any identifier (other than
the literal `'all'`) resolves to an invalid or out-of-range index, the
whole call fails with an index-out-of-bounds error and no partial
selection is installed, even when earlier identifiers in the list were
valid. -/
theorem resolution_and_atomic_failure (env : Env) (s : DMState)
    (ids : List DeviceIdentifier) (i : Int) (str : String) :
    to_index (.int i) = i ∧
    (to_index (.str "first") = 0 ∧ to_index (.str "FIRST") = 0 ∧
     to_index (.str "Second") = 1 ∧ to_index (.str "tHiRd") = 2 ∧
     to_index (.str "fourth") = 3) ∧
    (upperPy str ≠ "FIRST" → upperPy str ≠ "SECOND" → upperPy str ≠ "THIRD" →
      upperPy str ≠ "FOURTH" → to_index (.str str) = -1) ∧
    ((∃ d ∈ ids, d ≠ DeviceIdentifier.str "all" ∧ ¬ validId env.cpus d) →
      ∃ e, cpu env s (.list ids) = ({ s with device := some "cpu" }, some e)) ∧
    ((∃ d ∈ ids, d ≠ DeviceIdentifier.str "all" ∧ ¬ validId env.gpus d) →
      ∃ e, gpu env s (.list ids) = ({ s with device := some "gpu" }, some e)) := by
  refine ⟨rfl, by decide, ?_, ?_, ?_⟩
  · intro h1 h2 h3 h4
    simp only [to_index]
  · intro hbad
    obtain ⟨e, he⟩ := selectLoop_error env.cpus ids []
      (by obtain ⟨d, hd, _, hb⟩ := hbad; exact ⟨d, hd, hb⟩)
    refine ⟨e, ?_⟩
    simp only [cpu, select_from_available]
    rw [he]
  · intro hbad
    obtain ⟨e, he⟩ := selectLoop_error env.gpus ids []
      (by obtain ⟨d, hd, _, hb⟩ := hbad; exact ⟨d, hd, hb⟩)
    refine ⟨e, ?_⟩
    simp only [gpu, select_from_available]
    rw [he]

/-- Witness for C2: the call `cpu([0, 5])` against a single CPU fails
whole, leaving the selection uninstalled, although identifier `0` was
valid. -/
theorem resolution_and_atomic_failure_witness :
    ∃ e, cpu ⟨[cpuDev], [], none, none⟩ initState (.list [.int 0, .int 5])
      = ({ initState with device := some "cpu" }, some e) :=
  (resolution_and_atomic_failure ⟨[cpuDev], [], none, none⟩ initState
    [.int 0, .int 5] 0 "x").2.2.2.1 (by decide)

/-- **C3.** The cached Strategy is always consistent with the most recent
successful Device Selection: `getStrategy()` called twice without an
intervening select returns the same cached Strategy both times (the
second call, even against a changed framework, returns the cache
untouched), and every successful select (`cpu()`/`gpu()`) discards the
cached Strategy, so the next `getStrategy()` builds from the new
selection, never the old one. -/
theorem strategy_cache_consistency (env env2 : Env) (s : DMState)
    (ids : DeviceString) :
    (build_strategy env2 (build_strategy env s).1).1 = (build_strategy env s).1 ∧
    (strategyProp env2 (strategyProp env s).1).2 = (strategyProp env s).2 ∧
    ((cpu env s ids).2 = none →
      (cpu env s ids).1.strategy = none ∧
      (strategyProp env2 (cpu env s ids).1).2
        = some (stratOf (cpu env s ids).1.device_list)) ∧
    ((gpu env s ids).2 = none →
      (gpu env s ids).1.strategy = none ∧
      (strategyProp env2 (gpu env s ids).1).2
        = some (stratOf (gpu env s ids).1.device_list)) := by
  obtain ⟨st, hst⟩ := Option.isSome_iff_exists.mp (build_strategy_isSome env s)
  have hidem : (build_strategy env2 (build_strategy env s).1).1
      = (build_strategy env s).1 := build_strategy_of_some env2 _ st hst
  refine ⟨hidem, ?_, ?_, ?_⟩
  · simp [strategyProp, hidem]
  · intro hok
    cases hsel : select_from_available ids env.cpus with
    | error e =>
      exfalso
      simp only [cpu, hsel] at hok
      exact Option.noConfusion hok
    | ok sel =>
      have hstate : (cpu env s ids).1
          = { s with device := some "cpu", device_list := sel, strategy := none } := by
        simp [cpu, hsel]
      rw [hstate]
      exact ⟨rfl, by simp [strategyProp, build_strategy_of_none]⟩
  · intro hok
    cases hsel : select_from_available ids env.gpus with
    | error e =>
      exfalso
      simp only [gpu, hsel] at hok
      exact Option.noConfusion hok
    | ok sel =>
      have hstate : (gpu env s ids).1
          = { s with device := some "gpu", device_list := sel, strategy := none } := by
        simp [gpu, hsel]
      rw [hstate]
      exact ⟨rfl, by simp [strategyProp, build_strategy_of_none]⟩

/-- Witness for C3: after selecting the one GPU, the cache is empty and
the next build uses the new selection. -/
theorem strategy_cache_consistency_witness :
    (gpu ⟨[cpuDev], [gpuDev0], none, none⟩ initState (.one (.str "all"))).1.strategy
        = none ∧
    (strategyProp ⟨[], [], none, none⟩
        (gpu ⟨[cpuDev], [gpuDev0], none, none⟩ initState (.one (.str "all"))).1).2
      = some (stratOf
          (gpu ⟨[cpuDev], [gpuDev0], none, none⟩ initState
            (.one (.str "all"))).1.device_list) :=
  (strategy_cache_consistency ⟨[cpuDev], [gpuDev0], none, none⟩
    ⟨[], [], none, none⟩ initState (.one (.str "all"))).2.2.2 (by decide)

/-- **C4 (counterexample).** A new Strategy is built while the selected
device type is `'cpu'`: the framework reports a GPU and the Growth Flag is
set, yet no `set_memory_growth` call at all is made — contradicting the
claim that every build first applies the Growth Flag to all GPU devices. -/
theorem growth_skipped_on_cpu_counterexample :
    ((⟨some "cpu", [cpuDev], none, none, true⟩ : DMState).strategy = none) ∧
    (Env.gpus ⟨[cpuDev], [gpuDev0], none, none⟩ ≠ []) ∧
    ((build_strategy ⟨[cpuDev], [gpuDev0], none, none⟩
        ⟨some "cpu", [cpuDev], none, none, true⟩).1.strategy).isSome ∧
    (build_strategy ⟨[cpuDev], [gpuDev0], none, none⟩
        ⟨some "cpu", [cpuDev], none, none, true⟩).2 = [] := by
  decide

/-- **C4 (amended).** Whenever `getStrategy()` builds a new Strategy and
the currently recorded device type is `'gpu'`, it first applies the
current Growth Flag to all GPU devices reported by the framework (up to
the first framework failure, whose error is caught and ignored); when the
recorded type is not `'gpu'`, no growth setting is attempted; in all
cases strategy construction proceeds to the same built strategy
regardless of such failures. -/
theorem growth_applied_on_gpu_build (env : Env) (s : DMState)
    (h : s.strategy = none) :
    (s.device = some "gpu" → env.growthFailAt = none →
      (build_strategy env s).2 = env.gpus.map fun g => (g, s.growth)) ∧
    (s.device = some "gpu" → ∀ k, env.growthFailAt = some k →
      (build_strategy env s).2 = (env.gpus.take k).map fun g => (g, s.growth)) ∧
    (s.device ≠ some "gpu" → (build_strategy env s).2 = []) ∧
    (∀ failAt, (build_strategy { env with growthFailAt := failAt } s).1
        = (build_strategy env s).1) ∧
    ((build_strategy env s).1.strategy).isSome := by
  refine ⟨?_, ?_, ?_, ?_, build_strategy_isSome env s⟩
  · intro hgpu hfail
    simp [build_strategy, h, hgpu, growthCalls, hfail]
  · intro hgpu k hfail
    simp [build_strategy, h, hgpu, growthCalls, hfail]
  · intro hngpu
    simp [build_strategy, h, hngpu]
  · intro failAt
    simp [build_strategy, h]

/-- Witness for C4 (amended): with type `'gpu'` selected and no framework
failure, both reported GPUs receive the Growth Flag. -/
theorem growth_applied_on_gpu_build_witness :
    (build_strategy ⟨[cpuDev], [gpuDev0, gpuDev1], none, none⟩
        ⟨some "gpu", [gpuDev0], none, none, true⟩).2
      = [gpuDev0, gpuDev1].map fun g =>
          (g, (⟨some "gpu", [gpuDev0], none, none, true⟩ : DMState).growth) :=
  (growth_applied_on_gpu_build ⟨[cpuDev], [gpuDev0, gpuDev1], none, none⟩
    ⟨some "gpu", [gpuDev0], none, none, true⟩ rfl).1 rfl rfl

/-- **C8.** Scope entry/exit is a correctly delegating scoped acquisition:
`__enter__` builds (if needed) and enters the current Strategy's scope,
`__exit__` forwards the exception information to that same stored scope's
`__exit__` and returns its result, so the underlying execution context is
closed on every exit path — normal return or error raised inside the
scope. -/
theorem scope_enter_exit_delegation (α : Type) (env : Env) (s : DMState)
    (st : Strategy) (body : Except String α)
    (hst : (build_strategy env s).1.strategy = some st) :
    (dmEnter env s).2 = some st.scope ∧
    (dmEnter env s).1.scope = some st.scope ∧
    (∀ a, body = .ok a → (withDM α env s body).2.2 = [⟨st.scope, none⟩]) ∧
    (∀ e, body = .error e → (withDM α env s body).2.2 = [⟨st.scope, some e⟩]) ∧
    dmExit env (dmEnter env s).1 none
      = .ok (env.scopeExitResult, ⟨st.scope, none⟩) := by
  have henter1 : (dmEnter env s).1 = { (build_strategy env s).1 with scope := some st.scope } := by
    simp [dmEnter, hst]
  have henter2 : (dmEnter env s).2 = some st.scope := by
    simp [dmEnter, hst]
  refine ⟨henter2, by rw [henter1], ?_, ?_, ?_⟩
  · intro a hbody
    subst hbody
    simp [withDM, dmExit, henter1]
  · intro e hbody
    subst hbody
    simp [withDM, dmExit, henter1]
  · rw [henter1]
    simp [dmExit]

/-- Witness for C8: a body that raises still results in exactly one
`__exit__` call on the stored scope, carrying the raised error. -/
theorem scope_enter_exit_delegation_witness :
    (withDM Nat ⟨[cpuDev], [], none, none⟩ initState (.error "boom")).2.2
      = [⟨(Strategy.OneDeviceStrategy "/cpu:0").scope, some "boom"⟩] :=
  (scope_enter_exit_delegation Nat ⟨[cpuDev], [], none, none⟩ initState
    (Strategy.OneDeviceStrategy "/cpu:0") (.error "boom") (by decide)).2.2.2.1
    "boom" rfl

/-- **C9.** When a select call (`cpu()`/`gpu()`) fails with an index
error, the previously installed Device Selection list and the cached
Strategy are left unchanged, but the device-type field has already been
updated to the newly requested type before the failure — so a subsequent
`getStrategy()` still returns or builds the strategy for the old
selection while the recorded device type names the new one. -/
theorem failed_select_partial_mutation (env env2 : Env) (s : DMState)
    (idsC idsG : DeviceString) (eC eG : String)
    (hC : select_from_available idsC env.cpus = .error eC)
    (hG : select_from_available idsG env.gpus = .error eG) :
    cpu env s idsC = ({ s with device := some "cpu" }, some eC) ∧
    gpu env s idsG = ({ s with device := some "gpu" }, some eG) ∧
    (s.strategy = none →
      (strategyProp env2 (cpu env s idsC).1).2 = some (stratOf s.device_list) ∧
      (strategyProp env2 (gpu env s idsG).1).2 = some (stratOf s.device_list)) ∧
    (∀ st, s.strategy = some st →
      (strategyProp env2 (cpu env s idsC).1).2 = some st ∧
      (strategyProp env2 (gpu env s idsG).1).2 = some st) := by
  have hcpu : cpu env s idsC = ({ s with device := some "cpu" }, some eC) := by
    simp [cpu, hC]
  have hgpu : gpu env s idsG = ({ s with device := some "gpu" }, some eG) := by
    simp [gpu, hG]
  refine ⟨hcpu, hgpu, ?_, ?_⟩
  · intro hnone
    rw [hcpu, hgpu]
    constructor
    · have hb := build_strategy_of_none env2 { s with device := some "cpu" }
        (by simpa using hnone)
      simp [strategyProp, hb]
    · have hb := build_strategy_of_none env2 { s with device := some "gpu" }
        (by simpa using hnone)
      simp [strategyProp, hb]
  · intro st hsome
    rw [hcpu, hgpu]
    constructor <;>
      simp [strategyProp, build_strategy_of_some _ _ st hsome, hsome]
    -- the cached strategy of the untouched selection is returned as-is
    <;> rfl

/-- Witness for C9: `gpu(0)` with no GPUs present fails, leaves the old
CPU selection and its buildable strategy intact, but records type
`'gpu'`. -/
theorem failed_select_partial_mutation_witness :
    cpu ⟨[], [], none, none⟩
        ⟨some "cpu", [cpuDev], none, none, false⟩ (.one (.int 0))
      = ({ (⟨some "cpu", [cpuDev], none, none, false⟩ : DMState) with
            device := some "cpu" }, some "Device \x7b\x7d not available!") ∧
    gpu ⟨[], [], none, none⟩
        ⟨some "cpu", [cpuDev], none, none, false⟩ (.one (.int 0))
      = ({ (⟨some "cpu", [cpuDev], none, none, false⟩ : DMState) with
            device := some "gpu" }, some "Device \x7b\x7d not available!") :=
  ⟨(failed_select_partial_mutation ⟨[], [], none, none⟩ ⟨[], [], none, none⟩
      ⟨some "cpu", [cpuDev], none, none, false⟩ (.one (.int 0)) (.one (.int 0))
      "Device \x7b\x7d not available!" "Device \x7b\x7d not available!"
      (by decide) (by decide)).1,
   (failed_select_partial_mutation ⟨[], [], none, none⟩ ⟨[], [], none, none⟩
      ⟨some "cpu", [cpuDev], none, none, false⟩ (.one (.int 0)) (.one (.int 0))
      "Device \x7b\x7d not available!" "Device \x7b\x7d not available!"
      (by decide) (by decide)).2.1⟩

end DeviceManagerSpec
